import Mathlib

/-!
# PayShield AI — verification of spec claims against a shallow embedding

This file embeds the parts of the PayShield AI backend
(`backend/app/constants.py`, `schemas.py`, `cache.py`, `models.py`,
`exceptions.py`, `middleware.py`) that the spec claims talk about, and
proves or refutes each claim.

Python floats appearing in validation bounds and score thresholds are
embedded as rationals (`ℚ`); machine integers as `Nat`/`Int` with explicit
`% 2^w` where overflow matters; fallible operations as `Except`/`Option`.
-/

namespace PayShield

/-! ## constants.py -/

/-- `AlertSeverity` enum (constants.py). -/
inductive AlertSeverity where
  | low
  | medium
  | high
deriving DecidableEq, Repr

/-- `AuditAction` enum (constants.py). -/
inductive AuditAction where
  | LOGIN
  | LOGOUT
  | VIEW_TRANSACTION
  | MARK_FRAUD
  | MARK_OK
  | CREATE_USER
  | DELETE_USER
  | DEPLOY_MODEL
deriving DecidableEq, Repr

/-- `FRAUD_SCORE_LOW_THRESHOLD = 0.30` (constants.py line 42). -/
def FRAUD_SCORE_LOW_THRESHOLD : ℚ := 3/10

/-- `FRAUD_SCORE_MEDIUM_THRESHOLD = 0.70` (constants.py line 43). -/
def FRAUD_SCORE_MEDIUM_THRESHOLD : ℚ := 7/10

/-- `FRAUD_SCORE_HIGH_THRESHOLD = 0.90` (constants.py line 44). -/
def FRAUD_SCORE_HIGH_THRESHOLD : ℚ := 9/10

/-- `MERCHANT_CATEGORIES` (constants.py lines 72-83). -/
def MERCHANT_CATEGORIES : List String :=
  ["retail", "food", "electronics", "travel", "luxury",
   "groceries", "gas", "utilities", "entertainment", "healthcare"]

/-- `COUNTRIES` (constants.py lines 86-89). -/
def COUNTRIES : List String :=
  ["US", "CA", "GB", "AU", "DE", "FR", "ES", "IT", "NL", "BE",
   "CH", "SE", "NO", "DK", "FI", "PL", "CZ", "AT", "GR", "PT"]

/-! ## Severity classification (prediction flow)

The prediction endpoint group that evaluates a score against the three
thresholds is referenced by the bootstrap but its file is not part of the
visible sources; only the threshold constants are (constants.py 42-44). -/

/-- Modelled from the spec: the prediction flow's severity classification,
whose endpoint-group file is missing from the visible sources. Per spec
§4.2 a score ≥0.90 maps to `high`, ≥0.70 to `medium`, ≥0.30 to `low`,
below 0.30 no alert (`none`); thresholds are the constants.py values. -/
def classifySeverity (s : ℚ) : Option AlertSeverity :=
  if FRAUD_SCORE_HIGH_THRESHOLD ≤ s then some .high
  else if FRAUD_SCORE_MEDIUM_THRESHOLD ≤ s then some .medium
  else if FRAUD_SCORE_LOW_THRESHOLD ≤ s then some .low
  else none

/-! ## JSON scalar values

The dictionaries the backend serializes (cache-key feature dicts, error
`details` maps) carry JSON scalar values; we embed them as `JVal`. -/

/-- A JSON scalar value as stored in the backend's dictionaries. -/
inductive JVal where
  | jnull
  | jbool (b : Bool)
  | jint (n : Int)
  | jstr (s : String)
deriving DecidableEq, Repr

/-! ## cache.py — hash_dict

`hash_dict(data)` is
`hashlib.md5(json.dumps(data, sort_keys=True).encode()).hexdigest()`
(cache.py 224-235).  The MD5 digest and the UTF-8 encoding are embedded
below in full over `Nat` byte lists; `json.dumps(..., sort_keys=True)`
iterates the dict's items in sorted key order with the default
separators `", "` and `": "`. -/

/-- `2^32`, the word modulus of MD5. -/
def UINT32_MOD : Nat := 4294967296

/-- Bitwise complement within 32 bits. -/
def not32 (x : Nat) : Nat := x ^^^ (UINT32_MOD - 1)

/-- 32-bit left rotation (for `x < 2^32`). -/
def rotl32 (x c : Nat) : Nat :=
  ((x <<< c) % UINT32_MOD) ||| (x >>> (32 - c))

/-- The 64 MD5 round constants `floor(2^32 * abs(sin(i+1)))`. -/
def md5K : List Nat :=
  [0xd76aa478, 0xe8c7b756, 0x242070db, 0xc1bdceee,
   0xf57c0faf, 0x4787c62a, 0xa8304613, 0xfd469501,
   0x698098d8, 0x8b44f7af, 0xffff5bb1, 0x895cd7be,
   0x6b901122, 0xfd987193, 0xa679438e, 0x49b40821,
   0xf61e2562, 0xc040b340, 0x265e5a51, 0xe9b6c7aa,
   0xd62f105d, 0x02441453, 0xd8a1e681, 0xe7d3fbc8,
   0x21e1cde6, 0xc33707d6, 0xf4d50d87, 0x455a14ed,
   0xa9e3e905, 0xfcefa3f8, 0x676f02d9, 0x8d2a4c8a,
   0xfffa3942, 0x8771f681, 0x6d9d6122, 0xfde5380c,
   0xa4beea44, 0x4bdecfa9, 0xf6bb4b60, 0xbebfbc70,
   0x289b7ec6, 0xeaa127fa, 0xd4ef3085, 0x04881d05,
   0xd9d4d039, 0xe6db99e5, 0x1fa27cf8, 0xc4ac5665,
   0xf4292244, 0x432aff97, 0xab9423a7, 0xfc93a039,
   0x655b59c3, 0x8f0ccc92, 0xffeff47d, 0x85845dd1,
   0x6fa87e4f, 0xfe2ce6e0, 0xa3014314, 0x4e0811a1,
   0xf7537e82, 0xbd3af235, 0x2ad7d2bb, 0xeb86d391]

/-- The 64 MD5 per-round shift amounts. -/
def md5S : List Nat :=
  [7, 12, 17, 22, 7, 12, 17, 22, 7, 12, 17, 22, 7, 12, 17, 22,
   5, 9, 14, 20, 5, 9, 14, 20, 5, 9, 14, 20, 5, 9, 14, 20,
   4, 11, 16, 23, 4, 11, 16, 23, 4, 11, 16, 23, 4, 11, 16, 23,
   6, 10, 15, 21, 6, 10, 15, 21, 6, 10, 15, 21, 6, 10, 15, 21]

/-- The `k` low-order bytes of `n`, little-endian. -/
def natToBytesLE : Nat → Nat → List Nat
  | _, 0 => []
  | n, k + 1 => n % 256 :: natToBytesLE (n / 256) k

/-- MD5 padding: append `0x80`, zero bytes up to 56 mod 64, then the
64-bit little-endian bit length. -/
def md5Pad (msg : List Nat) : List Nat :=
  let len := msg.length
  let zeros := (120 - ((len + 1) % 64)) % 64
  msg ++ [128] ++ List.replicate zeros 0 ++ natToBytesLE ((len * 8) % (2 ^ 64)) 8

/-- Group bytes into 32-bit little-endian words. -/
def toWordsLE : List Nat → List Nat
  | b0 :: b1 :: b2 :: b3 :: rest =>
    (b0 + 256 * b1 + 65536 * b2 + 16777216 * b3) :: toWordsLE rest
  | _ => []

/-- One MD5 round `i` on state `(a,b,c,d)` over message words `M`. -/
def md5Round (M : List Nat) (st : Nat × Nat × Nat × Nat) (i : Nat) :
    Nat × Nat × Nat × Nat :=
  let (a, b, c, d) := st
  let fg : Nat × Nat :=
    if i < 16 then ((b &&& c) ||| (not32 b &&& d), i)
    else if i < 32 then ((d &&& b) ||| (not32 d &&& c), (5 * i + 1) % 16)
    else if i < 48 then (b ^^^ c ^^^ d, (3 * i + 5) % 16)
    else (c ^^^ (b ||| not32 d), (7 * i) % 16)
  let tmp := (fg.1 + a + md5K.getD i 0 + M.getD fg.2 0) % UINT32_MOD
  (d, (b + rotl32 tmp (md5S.getD i 0)) % UINT32_MOD, b, c)

/-- The MD5 compression function on one 16-word block. -/
def md5Compress (a b c d : Nat) (M : List Nat) : Nat × Nat × Nat × Nat :=
  let (a2, b2, c2, d2) := (List.range 64).foldl (md5Round M) (a, b, c, d)
  ((a + a2) % UINT32_MOD, (b + b2) % UINT32_MOD,
   (c + c2) % UINT32_MOD, (d + d2) % UINT32_MOD)

/-- Fold the compression function over the 16-word blocks. -/
def md5Blocks : Nat × Nat × Nat × Nat → List Nat → Nat × Nat × Nat × Nat
  | st, w0 :: w1 :: w2 :: w3 :: w4 :: w5 :: w6 :: w7 ::
        w8 :: w9 :: w10 :: w11 :: w12 :: w13 :: w14 :: w15 :: rest =>
    md5Blocks
      (md5Compress st.1 st.2.1 st.2.2.1 st.2.2.2
        [w0, w1, w2, w3, w4, w5, w6, w7, w8, w9, w10, w11, w12, w13, w14, w15])
      rest
  | st, _ => st

/-- Lowercase hex digit of `n < 16`. -/
def hexDigit (n : Nat) : Char :=
  if n < 10 then Char.ofNat (48 + n) else Char.ofNat (87 + n)

/-- Two lowercase hex digits of a byte. -/
def byteToHex (n : Nat) : List Char :=
  [hexDigit (n / 16 % 16), hexDigit (n % 16)]

/-- Eight hex digits of a 32-bit word, bytes little-endian first. -/
def wordToHexLE (w : Nat) : List Char :=
  byteToHex (w % 256) ++ byteToHex (w / 256 % 256) ++
    byteToHex (w / 65536 % 256) ++ byteToHex (w / 16777216 % 256)

/-- `hashlib.md5(bytes).hexdigest()`: the 32-character lowercase hex of
the 128-bit MD5 digest. -/
def md5Hex (msg : List Nat) : String :=
  let st := md5Blocks (0x67452301, 0xefcdab89, 0x98badcfe, 0x10325476)
    (toWordsLE (md5Pad msg))
  String.mk (wordToHexLE st.1 ++ wordToHexLE st.2.1 ++
    wordToHexLE st.2.2.1 ++ wordToHexLE st.2.2.2)

/-- UTF-8 encoding of one character (`str.encode()`), as byte values. -/
def utf8EncodeChar (c : Char) : List Nat :=
  let n := c.toNat
  if n < 128 then [n]
  else if n < 2048 then [192 + n / 64, 128 + n % 64]
  else if n < 65536 then [224 + n / 4096, 128 + (n / 64) % 64, 128 + n % 64]
  else [240 + n / 262144, 128 + (n / 4096) % 64, 128 + (n / 64) % 64, 128 + n % 64]

/-- UTF-8 encoding of a string (`str.encode()`), as byte values. -/
def utf8Bytes (s : String) : List Nat :=
  s.data.foldr (fun c acc => utf8EncodeChar c ++ acc) []

/-- JSON escaping of one character inside a string literal (the
characters the backend's keys and values use need only the quote and
backslash escapes). -/
def escapeChar (c : Char) : String :=
  if c = '"' then "\\\"" else if c = '\\' then "\\\\" else String.mk [c]

/-- JSON rendering of a string literal. -/
def renderString (s : String) : String :=
  "\"" ++ s.data.foldr (fun c acc => escapeChar c ++ acc) "" ++ "\""

/-- JSON rendering of a scalar value. -/
def renderJVal : JVal → String
  | .jnull => "null"
  | .jbool true => "true"
  | .jbool false => "false"
  | .jint n => toString n
  | .jstr s => renderString s

/-- JSON rendering of an object from an ordered field list, with
`json.dumps`'s default separators. -/
def renderObj (fields : List (String × JVal)) : String :=
  "\x7b" ++ String.intercalate ", "
    (fields.map (fun kv => renderString kv.1 ++ ": " ++ renderJVal kv.2)) ++ "\x7d"

/-- The dict's keys in sorted order, as `sort_keys=True` visits them. -/
def sortedKeys (d : List (String × JVal)) : List String :=
  List.insertionSort (fun a b => a ≤ b) (d.map Prod.fst)

/-- `json.dumps(data, sort_keys=True)`: render the object visiting the
items in sorted key order. -/
def jsonDumpsSorted (d : List (String × JVal)) : String :=
  renderObj ((sortedKeys d).map (fun k => (k, (d.lookup k).getD .jnull)))

/-- `hash_dict` (cache.py 224-235):
`hashlib.md5(json.dumps(data, sort_keys=True).encode()).hexdigest()`. -/
def hashDict (d : List (String × JVal)) : String :=
  md5Hex (utf8Bytes (jsonDumpsSorted d))

/-! ## models.py — ORM delete semantics for User / AuditLog

`models.py` declares two delete behaviours for the User→AuditLog edge:
the ORM relationship `User.audit_logs` (line 50) carries
`cascade="all, delete-orphan"`, so an ORM-level `session.delete(user)`
deletes the user's AuditLog rows before the parent row; while the
foreign key `AuditLog.user_id` (line 175) carries `ondelete="SET NULL"`,
the database-level rule that nulls the reference instead.  Both are
embedded below. -/

/-- A row of the `users` table (models.py 30-58), restricted to the
columns the delete semantics touch. -/
structure UserRow where
  id : Nat
  email : String
deriving DecidableEq, Repr

/-- A row of the `audit_logs` table (models.py 170-196), restricted to
the columns the delete semantics touch. -/
structure AuditLogRow where
  id : Nat
  user_id : Option Nat
  action : AuditAction
deriving DecidableEq, Repr

/-- The relational state relevant to user deletion. -/
structure DBState where
  users : List UserRow
  audit_logs : List AuditLogRow
deriving DecidableEq, Repr

/-- ORM-level deletion of a user: with
`audit_logs = relationship(..., cascade="all, delete-orphan")`
(models.py line 50), deleting a `User` object cascades a delete to every
associated `AuditLog` row, then deletes the user row. -/
def deleteUserOrm (db : DBState) (uid : Nat) : DBState :=
  { users := db.users.filter (fun u => u.id ≠ uid),
    audit_logs := db.audit_logs.filter (fun a => a.user_id ≠ some uid) }

/-- Database-level deletion of a user: the foreign key
`ForeignKey("users.id", ondelete="SET NULL")` (models.py line 175) keeps
every `audit_logs` row and nulls its `user_id` reference. -/
def deleteUserSetNull (db : DBState) (uid : Nat) : DBState :=
  { users := db.users.filter (fun u => u.id ≠ uid),
    audit_logs := db.audit_logs.map (fun a =>
      if a.user_id = some uid then { a with user_id := none } else a) }

/-! ## exceptions.py — handlers -/

/-- The value carried by a `PayShieldException` (exceptions.py 10-25):
message, machine-readable error code, HTTP status code, detail map. -/
structure PayShieldExceptionV where
  message : String
  error_code : String
  status_code : Nat
  details : List (String × JVal)
deriving DecidableEq, Repr

/-- The request data the exception handlers and the request-id middleware
read or write: inbound headers, and the `request.state` attributes the
middleware stores. -/
structure RequestV where
  headers : List (String × String)
  state_request_id : Option String
  state_correlation_id : Option String
deriving DecidableEq, Repr

/-- `request.headers.get(key, default)`. -/
def headersGet (headers : List (String × String)) (key dflt : String) : String :=
  match headers.lookup key with
  | some v => v
  | none => dflt

/-- A value of the rendered JSON error payload: a string field or the
nested `details` dict. -/
inductive RespVal where
  | rstr (s : String)
  | rdict (d : List (String × JVal))
deriving DecidableEq, Repr

/-- A `JSONResponse`: status code plus content dict, the dict kept as an
ordered field list. -/
structure JSONResponseV where
  status_code : Nat
  content : List (String × RespVal)
deriving DecidableEq, Repr

/-- `payshield_exception_handler` (exceptions.py 135-147): renders a
domain error as status `exc.status_code` with content
`{error, message, details, request_id}`, the request id read from the
inbound `X-Request-ID` header with default `"unknown"`. -/
def payshieldExceptionHandler (request : RequestV) (exc : PayShieldExceptionV) :
    JSONResponseV :=
  { status_code := exc.status_code,
    content :=
      [("error", .rstr exc.error_code),
       ("message", .rstr exc.message),
       ("details", .rdict exc.details),
       ("request_id", .rstr (headersGet request.headers "X-Request-ID" "unknown"))] }

/-- `general_exception_handler` (exceptions.py 150-159): renders any
unanticipated exception (embedded as its text) as status 500 with content
`{error, message, request_id}` — the body never reads `exc`. -/
def generalExceptionHandler (request : RequestV) (exc : String) : JSONResponseV :=
  { status_code := 500,
    content :=
      [("error", .rstr "INTERNAL_ERROR"),
       ("message", .rstr "An unexpected error occurred"),
       ("request_id", .rstr (headersGet request.headers "X-Request-ID" "unknown"))] }

/-! ## middleware.py — RequestIdMiddleware -/

/-- `RequestIdMiddleware.dispatch` (middleware.py 37-56), the inbound
half: `request_id = request.headers.get(REQUEST_ID_HEADER) or str(uuid.uuid4())`
(and likewise for the correlation id), stored on `request.state`.  The
fresh UUID strings are passed in as `freshReq`/`freshCorr`; Python's `or`
also replaces an empty-string header by the fresh id. -/
def requestIdDispatch (request : RequestV) (freshReq freshCorr : String) : RequestV :=
  let rid :=
    match request.headers.lookup "X-Request-ID" with
    | some v => if v = "" then freshReq else v
    | none => freshReq
  let cid :=
    match request.headers.lookup "X-Correlation-ID" with
    | some v => if v = "" then freshCorr else v
    | none => freshCorr
  { request with state_request_id := some rid, state_correlation_id := some cid }

/-! ## cache.py — cache client

The Redis client's primitives are embedded as fallible functions
(`Except String`), a failure standing for the exception a primitive may
raise; the module-level `_redis_client : Optional[Redis]` becomes an
`Option RedisClient` argument.  Each cache function's `try/except` block
becomes a match on the `Except` computation of its body. -/

/-- The Redis primitives used by cache.py, each fallible. -/
structure RedisClient where
  setex : String → Nat → String → Except String Unit
  get : String → Except String (Option String)
  del : List String → Except String Nat
  scan : Nat → String → Except String (Nat × List String)
  incr : String → Except String Nat
  expire : String → Int → Except String Bool

/-- `CacheException` (exceptions.py 123-132), as raised by the cache
module; only its message is relevant here. -/
structure CacheExceptionV where
  message : String
deriving DecidableEq, Repr

/-- `get_redis` (cache.py 50-54): returns the client or raises
`CacheException` when `_redis_client` is `None`. -/
def getRedis (rc : Option RedisClient) : Except String RedisClient :=
  match rc with
  | none => .error "Redis client not initialized. Call init_cache() first."
  | some c => .ok c

/-- `set_cache` (cache.py 68-96): JSON-encodes structured values (already
a string here), stores with `setex`, returns `True`; any exception is
caught and `False` returned. -/
def setCache (rc : Option RedisClient) (key value : String) (ttl_seconds : Nat) :
    Bool :=
  match (do
      let client ← getRedis rc
      client.setex key ttl_seconds value : Except String Unit) with
  | .ok _ => true
  | .error _ => false

/-- `get_cache` (cache.py 99-127): returns the stored value or `none` on
a miss; any exception is caught and `none` returned.  (The attempted JSON
decode of a hit maps a hit to a hit and never affects the absent-value
sentinel `none`, so the raw stored string is returned for a hit.) -/
def getCache (rc : Option RedisClient) (key : String) : Option String :=
  match (do
      let client ← getRedis rc
      client.get key : Except String (Option String)) with
  | .ok v => v
  | .error _ => none

/-- `delete_cache` (cache.py 130-147): deletes the key, returns whether a
key was removed (`result > 0`); any exception is caught and `False`
returned. -/
def deleteCache (rc : Option RedisClient) (key : String) : Bool :=
  match (do
      let client ← getRedis rc
      client.del [key] : Except String Nat) with
  | .ok result => result > 0
  | .error _ => false

/-- The `while True` scan/delete loop of `clear_cache_pattern`
(cache.py 162-170), with explicit fuel: `none` means the loop did not
exit within `fuel` iterations (possible non-termination of the source
loop); `some r` means the loop exited with outcome `r`, where `r` is the
result of the loop body's `Except` computation. -/
def clearLoop (client : RedisClient) (pattern : String) :
    Nat → Nat → Nat → Option (Except String Nat)
  | 0, _, _ => none
  | fuel + 1, cursor, deleted =>
    match client.scan cursor pattern with
    | .error e => some (.error e)
    | .ok (cursor2, keys) =>
      match (if keys.isEmpty then .ok 0 else client.del keys : Except String Nat) with
      | .error e => some (.error e)
      | .ok n =>
        if cursor2 = 0 then some (.ok (deleted + n))
        else clearLoop client pattern fuel cursor2 (deleted + n)

/-- `clear_cache_pattern` (cache.py 150-176): cursor-based scan from
cursor 0, bulk-deleting each non-empty key batch, looping until the
returned cursor is 0; returns the total deleted, and any exception is
caught and `0` returned.  `none` stands for the source loop not having
exited within `fuel` iterations. -/
def clearCachePattern (rc : Option RedisClient) (pattern : String) (fuel : Nat) :
    Option Nat :=
  match getRedis rc with
  | .error _ => some 0
  | .ok client =>
    match clearLoop client pattern fuel 0 0 with
    | none => none
    | some (.ok deleted) => some deleted
    | some (.error _) => some 0

/-- Python truthiness of the `Optional[int]` TTL argument in
`if ttl_seconds and value == 1`: `None` and `0` are falsy. -/
def ttlTruthy : Option Int → Bool
  | none => false
  | some t => t ≠ 0

/-- `increment_counter` (cache.py 179-202): `incr` the key; when the TTL
argument is truthy and the post-increment value is 1, `expire` the key;
any exception is caught and re-raised as `CacheException`.  The second
component records whether the `expire` call was performed. -/
def incrementCounter (rc : Option RedisClient) (key : String)
    (ttl_seconds : Option Int) : Except CacheExceptionV Nat × Bool :=
  match getRedis rc with
  | .error e => (.error ⟨"Failed to increment counter: " ++ e⟩, false)
  | .ok client =>
    match client.incr key with
    | .error e => (.error ⟨"Failed to increment counter: " ++ e⟩, false)
    | .ok value =>
      if ttlTruthy ttl_seconds ∧ value = 1 then
        match client.expire key (ttl_seconds.getD 0) with
        | .error e => (.error ⟨"Failed to increment counter: " ++ e⟩, true)
        | .ok _ => (.ok value, true)
      else (.ok value, false)

/-! ### Pure description of a successful scan/delete run (for C9)

For a client whose `scan` and `del` never fail, the loop's behaviour is
described by the pure functions below: `cursorAt f k` is the cursor
before the `(k+1)`-st scan call, and `sumDeleted f g k n` the keys
deleted by scans `k, k+1, …, k+n-1`. -/

/-- Cursor before the `(k+1)`-st scan: the loop starts at cursor 0 and
each scan at cursor `c` hands back cursor `(f c).1`. -/
def cursorAt (f : Nat → Nat × List String) : Nat → Nat
  | 0 => 0
  | k + 1 => (f (cursorAt f k)).1

/-- Keys deleted by the `(k+1)`-st scan step: batch `(f (cursorAt f k)).2`,
deleted through `g` unless empty. -/
def stepDeleted (f : Nat → Nat × List String) (g : List String → Nat) (k : Nat) :
    Nat :=
  let keys := (f (cursorAt f k)).2
  if keys.isEmpty then 0 else g keys

/-- Total keys deleted by scan steps `k, …, k+n-1`. -/
def sumDeleted (f : Nat → Nat × List String) (g : List String → Nat) :
    Nat → Nat → Nat
  | _, 0 => 0
  | k, n + 1 => stepDeleted f g k + sumDeleted f g (k + 1) n

/-! ## schemas.py — PredictionRequest validation -/

/-- The `valid_categories` list hard-coded in
`PredictionRequest.validate_merchant_category` (schemas.py 155-158). -/
def validCategories : List String :=
  ["retail", "food", "electronics", "travel", "luxury",
   "groceries", "gas", "utilities", "entertainment", "healthcare"]

/-- The `valid_countries` list hard-coded in
`PredictionRequest.validate_country` (schemas.py 166-169). -/
def validCountries : List String :=
  ["US", "CA", "GB", "AU", "DE", "FR", "ES", "IT", "NL", "BE",
   "CH", "SE", "NO", "DK", "FI", "PL", "CZ", "AT", "GR", "PT"]

/-- `PredictionRequest` validation (schemas.py 143-172): the declarative
field constraint `amount: Field(..., gt=0, le=1_000_000)` together with the
two `@validator` functions on `merchant_category` and `country`.  The
optional fields (`device_fingerprint`, `ip_address_hash`, `timestamp`)
carry no validators and cannot cause rejection. -/
def predictionRequestAccepted (amount : ℚ) (merchant_category country : String) : Bool :=
  decide (0 < amount) && decide (amount ≤ 1000000) &&
    validCategories.contains merchant_category &&
    validCountries.contains country

/-! ## schemas.py — UserCreate password validation -/

/-- `UserCreate` password validation (schemas.py 54-65): the declarative
constraint `Field(..., min_length=8)` plus the `validate_password`
validator requiring `any(c.isupper())` and `any(c.isdigit())`. -/
def userCreatePasswordAccepted (password : String) : Bool :=
  decide (8 ≤ password.length) &&
    password.data.any Char.isUpper &&
    password.data.any Char.isDigit

end PayShield

namespace PayShield

/-! ## Claim theorems: C1, C5, C6 -/

/-- C1: for every fraud score `s ∈ [0,1]`, the severity classification
against the three threshold constants maps `s ≥ 0.90` to high severity,
`0.70 ≤ s < 0.90` to medium, `0.30 ≤ s < 0.70` to low, and `s < 0.30` to
no alert; the boundary values `0.30`, `0.70` and `0.90` themselves map to
low, medium and high respectively. -/
theorem C1_severity_classification (s : ℚ) (h0 : 0 ≤ s) (h1 : s ≤ 1) :
    ((9/10 ≤ s → classifySeverity s = some .high) ∧
     (7/10 ≤ s ∧ s < 9/10 → classifySeverity s = some .medium) ∧
     (3/10 ≤ s ∧ s < 7/10 → classifySeverity s = some .low) ∧
     (s < 3/10 → classifySeverity s = none)) ∧
    classifySeverity (3/10) = some .low ∧
    classifySeverity (7/10) = some .medium ∧
    classifySeverity (9/10) = some .high := by
  unfold classifySeverity FRAUD_SCORE_LOW_THRESHOLD
    FRAUD_SCORE_MEDIUM_THRESHOLD FRAUD_SCORE_HIGH_THRESHOLD
  refine ⟨⟨fun hh => ?_, fun hm => ?_, fun hl => ?_, fun hn => ?_⟩, ?_, ?_, ?_⟩
  · rw [if_pos hh]
  · rw [if_neg (by linarith [hm.2]), if_pos hm.1]
  · rw [if_neg (by linarith [hl.2]), if_neg (by linarith [hl.2]), if_pos hl.1]
  · rw [if_neg (by linarith), if_neg (by linarith), if_neg (by linarith)]
  · norm_num
  · norm_num
  · norm_num

/-- Witness for C1 at the concrete score 1/2. -/
theorem C1_severity_classification_witness :
    (0:ℚ) ≤ 1/2 ∧ (1:ℚ)/2 ≤ 1 ∧ classifySeverity (1/2) = some .low :=
  ⟨by norm_num, by norm_num,
   ((C1_severity_classification (1/2) (by norm_num) (by norm_num)).1.2.2.1
     ⟨by norm_num, by norm_num⟩)⟩

/-- C5: prediction-request validation accepts exactly the inputs whose
amount lies in `(0, 1000000]`, whose merchant category is one of the 10
fixed values, and whose country is one of the 20 fixed codes. -/
theorem C5_prediction_request_validation
    (amount : ℚ) (mc country : String) :
    predictionRequestAccepted amount mc country = true ↔
      (0 < amount ∧ amount ≤ 1000000 ∧
       mc ∈ MERCHANT_CATEGORIES ∧ country ∈ COUNTRIES) := by
  have hcat : validCategories = MERCHANT_CATEGORIES := rfl
  have hctry : validCountries = COUNTRIES := rfl
  simp [predictionRequestAccepted, hcat, hctry, List.contains_iff_exists_mem_beq,
    beq_iff_eq, and_assoc]

/-- C6: account-creation password validation accepts exactly the passwords
of length at least 8 containing at least one uppercase letter and at least
one digit; a password meeting the length bound but lacking an uppercase
letter or a digit is rejected. -/
theorem C6_password_validation (p : String) :
    userCreatePasswordAccepted p = true ↔
      (8 ≤ p.length ∧ (∃ c ∈ p.data, c.isUpper) ∧ (∃ c ∈ p.data, c.isDigit)) := by
  simp [userCreatePasswordAccepted, List.any_eq_true, and_assoc]

/-! ## Helper lemma for the scan/delete loop -/

/-- A run of the scan/delete loop over a client whose `scan` and `del`
never fail: starting before the `(k+1)`-st scan with accumulator `acc`,
if the cursor first returns to 0 after `n` more scans and the fuel covers
them, the loop exits with `acc` plus the keys deleted by those scans. -/
theorem clearLoop_success_run
    (client : RedisClient) (pattern : String)
    (f : Nat → Nat × List String) (g : List String → Nat)
    (hscan : ∀ cur, client.scan cur pattern = .ok (f cur))
    (hdel : ∀ ks, client.del ks = .ok (g ks)) :
    ∀ n k acc fuel, 1 ≤ n →
      cursorAt f (k + n) = 0 →
      (∀ m, k < m → m < k + n → cursorAt f m ≠ 0) →
      n ≤ fuel →
      clearLoop client pattern fuel (cursorAt f k) acc
        = some (.ok (acc + sumDeleted f g k n)) := by
  intro n
  induction n with
  | zero => intro k acc fuel h1; exact absurd h1 (by omega)
  | succ n ih =>
    intro k acc fuel _ h0 hmin hfuel
    obtain ⟨fl, rfl⟩ : ∃ fl, fuel = fl + 1 := ⟨fuel - 1, by omega⟩
    rcases hf : f (cursorAt f k) with ⟨c2, keys⟩
    have hc2 : cursorAt f (k + 1) = c2 := by
      show (f (cursorAt f k)).1 = c2
      rw [hf]
    have hdel2 :
        (if keys.isEmpty then (Except.ok 0 : Except String Nat)
          else client.del keys) = .ok (if keys.isEmpty then 0 else g keys) := by
      by_cases h : keys.isEmpty <;> simp [h, hdel]
    have hstep : stepDeleted f g k = if keys.isEmpty then 0 else g keys := by
      unfold stepDeleted
      rw [hf]
    match n with
    | 0 =>
      have hz : c2 = 0 := by rw [← hc2]; exact h0
      have hsum : sumDeleted f g k 1 = stepDeleted f g k := by
        simp [sumDeleted]
      simp only [clearLoop, hscan (cursorAt f k), hf, hdel2, hz, hsum, hstep]
      simp
    | n' + 1 =>
      have hnz : c2 ≠ 0 := by
        rw [← hc2]
        exact hmin (k + 1) (by omega) (by omega)
      simp only [clearLoop, hscan (cursorAt f k), hf, hdel2]
      rw [if_neg hnz, ← hc2]
      have hrec := ih (k + 1) (acc + stepDeleted f g k) fl (by omega)
        (by
          have : k + 1 + (n' + 1) = k + (n' + 1 + 1) := by omega
          rw [this]; exact h0)
        (fun m hm1 hm2 => hmin m (by omega) (by omega))
        (by omega)
      rw [hstep] at hrec
      rw [hrec]
      have : acc + (if keys.isEmpty then 0 else g keys) + sumDeleted f g (k + 1) (n' + 1)
          = acc + sumDeleted f g k (n' + 1 + 1) := by
        have hs : sumDeleted f g k (n' + 1 + 1)
            = stepDeleted f g k + sumDeleted f g (k + 1) (n' + 1) := rfl
        rw [hs, hstep]
        omega
      rw [this]

/-! ## Helper lemmas for hash_dict determinism -/

/-- Association-list lookup is invariant under permutation when the keys
are duplicate-free. -/
theorem lookup_eq_of_perm {l1 l2 : List (String × JVal)} (h : l1.Perm l2) :
    (l1.map Prod.fst).Nodup → ∀ k, l1.lookup k = l2.lookup k := by
  induction h with
  | nil => intro _ k; rfl
  | cons x p ih =>
    intro nd k
    have ndt : ((List.map Prod.fst _).Nodup) := (List.nodup_cons.mp nd).2
    simp only [List.lookup]
    cases hkx : k == x.1
    · exact ih ndt k
    · rfl
  | swap x y l =>
    intro nd k
    have hxy : y.1 ≠ x.1 := by
      simp only [List.map_cons, List.nodup_cons, List.mem_cons] at nd
      exact fun hc => nd.1 (Or.inl hc)
    simp only [List.lookup]
    cases hky : k == y.1 <;> cases hkx : k == x.1 <;> simp
    exact absurd ((eq_of_beq hky).symm.trans (eq_of_beq hkx)) hxy
  | trans p1 p2 ih1 ih2 =>
    intro nd k
    have nd2 : (List.map Prod.fst _).Nodup := ((p1.map Prod.fst).nodup_iff).mp nd
    exact (ih1 nd k).trans (ih2 nd2 k)

/-- Sorting the keys of two permuted dicts yields the same key list. -/
theorem sortedKeys_eq_of_perm {d1 d2 : List (String × JVal)} (h : d1.Perm d2) :
    sortedKeys d1 = sortedKeys d2 := by
  have hperm : List.Perm (sortedKeys d1) (sortedKeys d2) :=
    (List.perm_insertionSort _ _).trans
      ((h.map Prod.fst).trans (List.perm_insertionSort _ _).symm)
  exact List.eq_of_perm_of_sorted hperm
    (List.sorted_insertionSort _ _) (List.sorted_insertionSort _ _)

/-- The hex rendering of the MD5 digest has 32 characters. -/
theorem md5Hex_length (msg : List Nat) : (md5Hex msg).length = 32 := by
  simp [md5Hex, String.length, wordToHexLE, byteToHex]

/-! ## Claim theorems: C2, C3, C10 -/

/-- C2 (code bug evaluation): deleting user 1, who owns the single audit
row 10, through the ORM relationship configured in models.py line 50
(`cascade="all, delete-orphan"`) deletes that audit row, while the
foreign-key rule of models.py line 175 (`ondelete="SET NULL"`) — and the
spec — would keep the row with its user reference nulled. -/
theorem C2_orm_delete_removes_audit_rows :
    (deleteUserOrm
        ⟨[⟨1, "a@x.com"⟩], [⟨10, some 1, .LOGIN⟩]⟩ 1).audit_logs = []
    ∧ (deleteUserSetNull
        ⟨[⟨1, "a@x.com"⟩], [⟨10, some 1, .LOGIN⟩]⟩ 1).audit_logs
        = [⟨10, none, .LOGIN⟩] := by
  constructor <;> rfl

/-- C3 (counterexample): at a concrete request and exception, the
catch-all handler's payload has exactly the keys
`error`, `message`, `request_id` — the `details` field of the claimed
error shape is absent. -/
theorem C3_counterexample :
    ((generalExceptionHandler ⟨[], none, none⟩ "boom").content.map Prod.fst
      = ["error", "message", "request_id"]) ∧
    ((generalExceptionHandler ⟨[], none, none⟩ "boom").content.lookup "details"
      = none) := by
  constructor <;> rfl

/-- C3 (amended): for every request and every non-domain error reaching
the top level, the catch-all handler renders HTTP status 500 with the
message field exactly the fixed string "An unexpected error occurred";
the payload carries exactly the fields `{error, message, request_id}`
(the `details` field of the general error shape is omitted), and the
rendered response is entirely independent of the underlying exception,
so no text derived from it can appear. -/
theorem C3_general_handler_fixed_message (request : RequestV) (exc : String) :
    (generalExceptionHandler request exc).status_code = 500 ∧
    (generalExceptionHandler request exc).content.lookup "message"
      = some (.rstr "An unexpected error occurred") ∧
    (generalExceptionHandler request exc).content.map Prod.fst
      = ["error", "message", "request_id"] ∧
    (∀ exc2 : String,
      generalExceptionHandler request exc = generalExceptionHandler request exc2) := by
  exact ⟨rfl, rfl, rfl, fun exc2 => rfl⟩

/-- C10: when the inbound headers contain no `X-Request-ID`, the
request-identity middleware stores a freshly generated id on the request
state, yet both exception handlers render the payload's `request_id`
field as the literal `"unknown"`; the middleware-generated id (a UUID
string, hence not `"unknown"`) never appears as the payload's request id. -/
theorem C10_handlers_ignore_middleware_request_id
    (request : RequestV) (freshReq freshCorr : String)
    (exc : PayShieldExceptionV) (err : String)
    (hnone : request.headers.lookup "X-Request-ID" = none)
    (hfresh : freshReq ≠ "unknown") :
    (requestIdDispatch request freshReq freshCorr).state_request_id = some freshReq ∧
    (payshieldExceptionHandler (requestIdDispatch request freshReq freshCorr) exc).content.lookup
        "request_id" = some (.rstr "unknown") ∧
    (generalExceptionHandler (requestIdDispatch request freshReq freshCorr) err).content.lookup
        "request_id" = some (.rstr "unknown") ∧
    (payshieldExceptionHandler (requestIdDispatch request freshReq freshCorr) exc).content.lookup
        "request_id" ≠ some (.rstr freshReq) := by
  have hstate : requestIdDispatch request freshReq freshCorr
      = { request with
            state_request_id := some freshReq,
            state_correlation_id := some (
              match request.headers.lookup "X-Correlation-ID" with
              | some v => if v = "" then freshCorr else v
              | none => freshCorr) } := by
    unfold requestIdDispatch
    rw [hnone]
  have hhdr : (requestIdDispatch request freshReq freshCorr).headers = request.headers := by
    rw [hstate]
  have hget : headersGet request.headers "X-Request-ID" "unknown" = "unknown" := by
    unfold headersGet
    rw [hnone]
  refine ⟨by rw [hstate], ?_, ?_, ?_⟩
  · simp [payshieldExceptionHandler, hhdr, hget, List.lookup]
  · simp [generalExceptionHandler, hhdr, hget, List.lookup]
  · simp [payshieldExceptionHandler, hhdr, hget, List.lookup]
    intro hcontr
    exact hfresh hcontr.symm

/-! ## Claim theorems: C4, C7, C9 -/

/-- C4: against a key-value store every one of whose primitives fails,
the cache operations never raise — `set_cache` returns `false`,
`get_cache` returns the absent-value sentinel `none`, `delete_cache`
returns `false`, `clear_cache_pattern` returns `0` — while
`increment_counter` raises an explicit `CacheException` instead of
returning a value. -/
theorem C4_cache_failure_policy
    (client : RedisClient)
    (key value pattern : String) (ttl : Nat) (ttl2 : Option Int) (fuel : Nat)
    (hset : ∀ k t v, ∃ e, client.setex k t v = .error e)
    (hget : ∀ k, ∃ e, client.get k = .error e)
    (hdel : ∀ ks, ∃ e, client.del ks = .error e)
    (hscan : ∀ cur pat, ∃ e, client.scan cur pat = .error e)
    (hincr : ∀ k, ∃ e, client.incr k = .error e)
    (hfuel : 1 ≤ fuel) :
    setCache (some client) key value ttl = false ∧
    getCache (some client) key = none ∧
    deleteCache (some client) key = false ∧
    clearCachePattern (some client) pattern fuel = some 0 ∧
    ∃ m, (incrementCounter (some client) key ttl2).1 = .error m := by
  obtain ⟨e1, he1⟩ := hset key ttl value
  obtain ⟨e2, he2⟩ := hget key
  obtain ⟨e3, he3⟩ := hdel [key]
  obtain ⟨e4, he4⟩ := hscan 0 pattern
  obtain ⟨e5, he5⟩ := hincr key
  obtain ⟨fl, rfl⟩ : ∃ fl, fuel = fl + 1 := ⟨fuel - 1, by omega⟩
  refine ⟨?_, ?_, ?_, ?_, ?_⟩
  · simp [setCache, getRedis, he1, Except.bind, bind]
  · simp [getCache, getRedis, he2, Except.bind, bind]
  · simp [deleteCache, getRedis, he3, Except.bind, bind]
  · simp [clearCachePattern, getRedis, clearLoop, he4]
  · exact ⟨⟨"Failed to increment counter: " ++ e5⟩, by
      simp [incrementCounter, getRedis, he5]⟩

/-- A key-value store on which every primitive fails, for the C4
witness. -/
def downClient : RedisClient :=
  { setex := fun _ _ _ => .error "connection refused",
    get := fun _ => .error "connection refused",
    del := fun _ => .error "connection refused",
    scan := fun _ _ => .error "connection refused",
    incr := fun _ => .error "connection refused",
    expire := fun _ _ => .error "connection refused" }

/-- Witness for C4 on the everywhere-failing store. -/
theorem C4_cache_failure_policy_witness :
    setCache (some downClient) "user:1" "v" 3600 = false ∧
    getCache (some downClient) "user:1" = none ∧
    deleteCache (some downClient) "user:1" = false ∧
    clearCachePattern (some downClient) "pred:*" 1 = some 0 ∧
    ∃ m, (incrementCounter (some downClient) "rate_limit:1:minute" (some 60)).1
      = .error m :=
  C4_cache_failure_policy downClient "user:1" "v" "pred:*" 3600 (some 60) 1
    (fun _ _ _ => ⟨"connection refused", rfl⟩)
    (fun _ => ⟨"connection refused", rfl⟩)
    (fun _ => ⟨"connection refused", rfl⟩)
    (fun _ _ => ⟨"connection refused", rfl⟩)
    (fun _ => ⟨"connection refused", rfl⟩)
    (by omega)

/-- C7 (counterexample): a TTL argument of `0` is supplied and the first
increment returns 1, yet no expiry call is performed — Python's
`if ttl_seconds and value == 1` treats the TTL `0` as falsy, refuting
that an expiry is set exactly when the post-increment value is 1
whenever a TTL argument is present. -/
theorem C7_counterexample :
    (incrementCounter
        (some ⟨fun _ _ _ => .ok (), fun _ => .ok none, fun ks => .ok ks.length,
               fun _ _ => .ok (0, []), fun _ => .ok 1, fun _ _ => .ok true⟩)
        "rate_limit:1:minute" (some 0)).1 = .ok 1 ∧
    (incrementCounter
        (some ⟨fun _ _ _ => .ok (), fun _ => .ok none, fun ks => .ok ks.length,
               fun _ _ => .ok (0, []), fun _ => .ok 1, fun _ _ => .ok true⟩)
        "rate_limit:1:minute" (some 0)).2 = false := by
  constructor <;> rfl

/-- C7 (amended): for every counter key, `increment_counter` with a
nonzero TTL argument sets an expiry on the key exactly when the
post-increment value equals 1; with a TTL argument of `0` (or none) no
expiry call is ever performed, and any subsequent increment of an
existing counter (post-increment value greater than 1) performs no
expiry call, so it cannot reset the TTL. -/
theorem C7_ttl_on_first_increment
    (client : RedisClient) (key : String) (v : Nat) (t : Int)
    (hincr : client.incr key = .ok v) :
    ((t ≠ 0 →
        ((incrementCounter (some client) key (some t)).2 = true ↔ v = 1)) ∧
     ((incrementCounter (some client) key (some 0)).2 = false) ∧
     ((incrementCounter (some client) key none).2 = false) ∧
     (v ≠ 1 → ∀ ttl, (incrementCounter (some client) key ttl).2 = false)) := by
  refine ⟨fun ht => ?_, ?_, ?_, fun hv ttl => ?_⟩
  · by_cases hv : v = 1
    · subst hv
      simp only [incrementCounter, getRedis, hincr, ttlTruthy]
      rcases hexp : client.expire key ((some t).getD 0) with e | b <;>
        simp [hexp, ht]
    · simp [incrementCounter, getRedis, hincr, ttlTruthy, hv]
  · simp [incrementCounter, getRedis, hincr, ttlTruthy]
  · simp [incrementCounter, getRedis, hincr, ttlTruthy]
  · simp [incrementCounter, getRedis, hincr, ttlTruthy, hv]

/-- A key-value store whose counter increment returns 1 (first
increment) and whose expiry call succeeds, for the C7 witness. -/
def firstIncrClient : RedisClient :=
  { setex := fun _ _ _ => .ok (),
    get := fun _ => .ok none,
    del := fun ks => .ok ks.length,
    scan := fun _ _ => .ok (0, []),
    incr := fun _ => .ok 1,
    expire := fun _ _ => .ok true }

/-- Witness for C7: on the first increment with TTL 60 the expiry call is
performed. -/
theorem C7_ttl_on_first_increment_witness :
    firstIncrClient.incr "rate_limit:1:minute" = .ok 1 ∧
    (60 : Int) ≠ 0 ∧
    ((incrementCounter (some firstIncrClient) "rate_limit:1:minute" (some 60)).2
        = true ↔ (1 : Nat) = 1) :=
  ⟨rfl, by decide,
   (C7_ttl_on_first_increment firstIncrClient "rate_limit:1:minute" 1 60 rfl).1
     (by decide)⟩

/-- C9: for every pattern and every functioning key-value store whose
cursor-based scan first returns the zero cursor after `n` scan calls,
`clear_cache_pattern` terminates — its loop exits once the cursor
returns to the start — and returns the total number of keys deleted
across all `n` scan iterations. -/
theorem C9_clear_pattern_terminates
    (client : RedisClient) (pattern : String)
    (f : Nat → Nat × List String) (g : List String → Nat) (n fuel : Nat)
    (hscan : ∀ cur, client.scan cur pattern = .ok (f cur))
    (hdel : ∀ ks, client.del ks = .ok (g ks))
    (hn : 1 ≤ n)
    (h0 : cursorAt f n = 0)
    (hmin : ∀ m, 1 ≤ m → m < n → cursorAt f m ≠ 0)
    (hfuel : n ≤ fuel) :
    clearCachePattern (some client) pattern fuel = some (sumDeleted f g 0 n) := by
  have hrun := clearLoop_success_run client pattern f g hscan hdel n 0 0 fuel
    hn (by simpa using h0) (fun m hm1 hm2 => hmin m hm1 (by omega)) hfuel
  have hstart : cursorAt f 0 = 0 := rfl
  rw [hstart] at hrun
  simp [clearCachePattern, getRedis, hrun]

/-- The scan script for the C9 witness: the scan at cursor 0 yields
cursor 5 and two keys, the scan at cursor 5 yields cursor 0 and one
key. -/
def scanScript : Nat → Nat × List String :=
  fun cur => if cur = 0 then (5, ["pred:a", "pred:b"]) else (0, ["pred:c"])

/-- A functioning key-value store realizing `scanScript`, for the C9
witness. -/
def scriptClient : RedisClient :=
  { setex := fun _ _ _ => .ok (),
    get := fun _ => .ok none,
    del := fun ks => .ok ks.length,
    scan := fun cur _ => .ok (scanScript cur),
    incr := fun _ => .ok 1,
    expire := fun _ _ => .ok true }

/-- Witness for C9: the two-step scan run deletes three keys. -/
theorem C9_clear_pattern_terminates_witness :
    cursorAt scanScript 2 = 0 ∧
    clearCachePattern (some scriptClient) "pred:*" 2 = some 3 :=
  ⟨rfl,
   C9_clear_pattern_terminates scriptClient "pred:*" scanScript List.length 2 2
     (fun _ => rfl) (fun _ => rfl) (by omega) rfl
     (fun m hm1 hm2 => by
       have hm : m = 1 := by omega
       subst hm
       decide)
     (by omega)⟩

/-! ## Claim theorem: C8 -/

/-- C8: for every pair of duplicate-free dictionaries equal as key-value
maps — i.e. permutations of one another, regardless of insertion order —
`hash_dict` returns the same hex string on both: it is a deterministic
function of the dictionary's contents, computed by serializing with
sorted keys and taking a 128-bit digest (32 hex characters). -/
theorem C8_hashDict_deterministic (d1 d2 : List (String × JVal))
    (nd : (d1.map Prod.fst).Nodup) (h : d1.Perm d2) :
    hashDict d1 = hashDict d2 ∧ (hashDict d1).length = 32 := by
  have hser : jsonDumpsSorted d1 = jsonDumpsSorted d2 := by
    unfold jsonDumpsSorted
    rw [sortedKeys_eq_of_perm h]
    exact congrArg renderObj (List.map_congr_left
      (fun k _ => by rw [lookup_eq_of_perm h nd k]))
  constructor
  · unfold hashDict
    rw [hser]
  · exact md5Hex_length _

/-- Witness for C8: the same two-field dict in both insertion orders. -/
theorem C8_hashDict_deterministic_witness :
    (([("amount", JVal.jint 250), ("country", JVal.jstr "US")].map
        Prod.fst).Nodup) ∧
    List.Perm [("amount", JVal.jint 250), ("country", JVal.jstr "US")]
      [("country", JVal.jstr "US"), ("amount", JVal.jint 250)] ∧
    hashDict [("amount", JVal.jint 250), ("country", JVal.jstr "US")]
      = hashDict [("country", JVal.jstr "US"), ("amount", JVal.jint 250)] :=
  ⟨by decide, List.Perm.swap _ _ _,
   (C8_hashDict_deterministic
      [("amount", JVal.jint 250), ("country", JVal.jstr "US")]
      [("country", JVal.jstr "US"), ("amount", JVal.jint 250)]
      (by decide) (List.Perm.swap _ _ _)).1⟩

/-- Witness for C10 at a concrete header-less request. -/
theorem C10_handlers_ignore_middleware_request_id_witness :
    ((⟨[("Accept", "application/json")], none, none⟩ : RequestV).headers.lookup
        "X-Request-ID" = none) ∧
    ("123e4567-e89b-42d3-a456-426614174000" ≠ "unknown") ∧
    (payshieldExceptionHandler
        (requestIdDispatch ⟨[("Accept", "application/json")], none, none⟩
          "123e4567-e89b-42d3-a456-426614174000"
          "123e4567-e89b-42d3-a456-426614174001")
        ⟨"Transaction with ID 7 not found", "RESOURCE_NOT_FOUND", 404, []⟩).content.lookup
        "request_id" = some (.rstr "unknown") :=
  ⟨rfl, by decide,
   (C10_handlers_ignore_middleware_request_id
      ⟨[("Accept", "application/json")], none, none⟩
      "123e4567-e89b-42d3-a456-426614174000"
      "123e4567-e89b-42d3-a456-426614174001"
      ⟨"Transaction with ID 7 not found", "RESOURCE_NOT_FOUND", 404, []⟩
      "boom" rfl (by decide)).2.1⟩

end PayShield
